import Mathlib

/-!
Verification of the data-state repository: a shallow embedding of the
observable key-value store (`src/dataState.ts`), the routing layer
(`DataAdapterLayer`), and the adapters' reconnect/retry state machines,
together with proofs of the specified properties.

JavaScript `Map`s are modelled as association lists in insertion order,
JavaScript `Set`s as duplicate-free lists in insertion order, and the JS
value `undefined` as `Option.none` at the store interface.  Subscriber
callbacks are external observers identified by numeric ids; whether a
given callback throws is an environment parameter (`kb`, `gb`), and each
notification records in its trace which callback was invoked, with what
arguments, and whether it threw — mirroring the `try/catch` isolation in
the source, where a throwing callback is caught and iteration continues.
-/

/-- `Map.get`: first binding for the key, if any. -/
def mapGet {κ α : Type} [DecidableEq κ] : List (κ × α) → κ → Option α
  | [], _ => none
  | (k, v) :: rest, key => if k = key then some v else mapGet rest key

/-- `Map.set`: replace the binding in place if the key exists (JS maps keep
the original insertion position), otherwise append a new binding. -/
def mapSet {κ α : Type} [DecidableEq κ] : List (κ × α) → κ → α → List (κ × α)
  | [], key, value => [(key, value)]
  | (k, v) :: rest, key, value =>
      if k = key then (key, value) :: rest else (k, v) :: mapSet rest key value

/-- `Map.delete`: remove the binding for the key. -/
def mapDelete {κ α : Type} [DecidableEq κ] : List (κ × α) → κ → List (κ × α)
  | [], _ => []
  | (k, v) :: rest, key =>
      if k = key then rest else (k, v) :: mapDelete rest key

/-- `Set.add`: no-op if the element is present, else append. -/
def setAdd {α : Type} [DecidableEq α] (s : List α) (x : α) : List α :=
  if x ∈ s then s else s ++ [x]

/-- `Set.delete`: remove the element. -/
def setDelete {α : Type} [DecidableEq α] (s : List α) (x : α) : List α :=
  s.filter (fun y => y ≠ x)

/-- One observable callback invocation performed by the store while
notifying subscribers.  `threw` records whether the callback raised (the
store catches the exception and continues). -/
inductive StoreEvent (V : Type) where
  | keyNotify (cbId : Nat) (value : Option V) (threw : Bool)
  | globalNotify (cbId : Nat) (key : String) (value : Option V) (threw : Bool)
deriving DecidableEq, Repr

/-- Throw-behaviour of per-key callbacks: `kb c v = true` means callback
`c` throws when invoked with value `v`. -/
def KB (V : Type) := Nat → Option V → Bool

/-- Throw-behaviour of global callbacks. -/
def GB (V : Type) := Nat → String → Option V → Bool

/-- The `DataState` store of `src/dataState.ts`.  Per-key subscriber
`Set` objects live in a small heap (`pools`) addressed by id, because the
cancellation closure returned by `subscribe` captures the `Set` *object*,
not the key — `subs` maps a key to the id of its current container. -/
structure DataState (V : Type) where
  data : List (String × Option V)
  pools : List (Nat × List Nat)
  subs : List (String × Nat)
  nextPool : Nat
  globals : List Nat
deriving DecidableEq, Repr

/-- A store with no entries and no subscribers. -/
def DataState.empty {V : Type} : DataState V :=
  { data := [], pools := [], subs := [], nextPool := 0, globals := [] }

/-- Invariants every store reachable through the API satisfies: pool ids
already allocated are below the allocation counter, and the modelled JS
maps have no duplicate keys. -/
def DataState.WF {V : Type} (s : DataState V) : Prop :=
  (∀ pr ∈ s.pools, pr.1 < s.nextPool) ∧
  (s.data.map Prod.fst).Nodup ∧
  (s.subs.map Prod.fst).Nodup ∧
  (s.pools.map Prod.fst).Nodup

instance {V : Type} (s : DataState V) : Decidable s.WF := by
  unfold DataState.WF; infer_instance

/-- `get(key)`: `this.data.get(key)` — `undefined` both for an absent key
and for a stored `undefined`. -/
def DataState.get {V : Type} (s : DataState V) (key : String) : Option V :=
  (mapGet s.data key).getD none

/-- `keys()`: snapshot of the map's keys in insertion order. -/
def DataState.keys {V : Type} (s : DataState V) : List String :=
  s.data.map Prod.fst

/-- The callbacks currently subscribed to `key`: the contents of the
container the subscriber map points at, if any. -/
def DataState.keySubsOf {V : Type} (s : DataState V) (key : String) : List Nat :=
  match mapGet s.subs key with
  | some cid => (mapGet s.pools cid).getD []
  | none => []

/-- `set(key, value)`: write the entry, then notify the per-key
subscribers (each in a `try/catch`), then the global subscribers
(likewise).  Returns the new store and the trace of invocations. -/
def DataState.set {V : Type} (s : DataState V) (key : String) (value : Option V)
    (kb : KB V) (gb : GB V) : DataState V × List (StoreEvent V) :=
  ({ s with data := mapSet s.data key value },
   (s.keySubsOf key).map (fun c => StoreEvent.keyNotify c value (kb c value)) ++
   s.globals.map (fun c => StoreEvent.globalNotify c key value (gb c key value)))

/-- `delete(key)`: drop the entry and the per-key subscriber set, then
notify global subscribers with `(key, undefined)`. -/
def DataState.delete {V : Type} (s : DataState V) (key : String) (gb : GB V) :
    DataState V × List (StoreEvent V) :=
  ({ s with data := mapDelete s.data key, subs := mapDelete s.subs key },
   s.globals.map (fun c => StoreEvent.globalNotify c key none (gb c key none)))

/-- `clear()`: drop all entries and subscriber sets, then notify global
subscribers once per previously-present key with `(key, undefined)`. -/
def DataState.clear {V : Type} (s : DataState V) (gb : GB V) :
    DataState V × List (StoreEvent V) :=
  ({ s with data := [], subs := [] },
   (s.data.map (fun kv =>
      s.globals.map (fun c => StoreEvent.globalNotify c kv.1 none (gb c kv.1 none)))).flatten)

/-- The cancellation closure returned by `subscribe`: it captures the key,
the callback, and the subscriber-`Set` *object* (here its pool id). -/
structure Cancel where
  key : String
  cb : Nat
  pool : Nat
deriving DecidableEq, Repr

/-- `subscribe(key, callback)`: create the key's container if missing, add
the callback, and invoke it once immediately when a current value exists
(`currentValue !== undefined`), inside a `try/catch`.  Returns the new
store, the cancellation handle, and the trace. -/
def DataState.subscribe {V : Type} (s : DataState V) (key : String) (c : Nat)
    (kb : KB V) : DataState V × Cancel × List (StoreEvent V) :=
  let scid : DataState V × Nat :=
    match mapGet s.subs key with
    | some cid => (s, cid)
    | none =>
        ({ s with pools := s.pools ++ [(s.nextPool, [])],
                  subs := mapSet s.subs key s.nextPool,
                  nextPool := s.nextPool + 1 }, s.nextPool)
  let s1 := scid.1
  let cid := scid.2
  let pool := (mapGet s1.pools cid).getD []
  let s2 := { s1 with pools := mapSet s1.pools cid (setAdd pool c) }
  let events :=
    match (mapGet s.data key).getD none with
    | some v => [StoreEvent.keyNotify c (some v) (kb c (some v))]
    | none => []
  (s2, { key := key, cb := c, pool := cid }, events)

/-- Running the cancellation closure: delete the callback from the
*captured* container; if that container is now empty, delete the key's
entry from the subscriber map (whatever container it currently maps to). -/
def DataState.unsubscribe {V : Type} (s : DataState V) (h : Cancel) : DataState V :=
  let pool := (mapGet s.pools h.pool).getD []
  let pool' := setDelete pool h.cb
  let s1 := { s with pools := mapSet s.pools h.pool pool' }
  if pool' = [] then { s1 with subs := mapDelete s1.subs h.key } else s1

/-- `subscribeAll(callback)`: register a global subscriber and invoke it
once per currently-present entry, each in a `try/catch`. -/
def DataState.subscribeAll {V : Type} (s : DataState V) (c : Nat) (gb : GB V) :
    DataState V × List (StoreEvent V) :=
  ({ s with globals := setAdd s.globals c },
   s.data.map (fun kv => StoreEvent.globalNotify c kv.1 kv.2 (gb c kv.1 kv.2)))

/-- Running the cancellation closure of `subscribeAll`. -/
def DataState.unsubscribeAll {V : Type} (s : DataState V) (c : Nat) : DataState V :=
  { s with globals := setDelete s.globals c }

/-!
## Routing layer (`DataAdapterLayer`)

Payloads are dynamic JavaScript values, modelled by a small value type.
-/

/-- A JavaScript value as it appears in payloads. -/
inductive JSVal where
  | undefinedV
  | null
  | bool (b : Bool)
  | num (n : Int)
  | str (s : String)
  | obj (fields : List (String × JSVal))

/-- JavaScript truthiness. -/
def jsTruthy : JSVal → Bool
  | .undefinedV => false
  | .null => false
  | .bool b => b
  | .num n => n != 0
  | .str s => s != ""
  | .obj _ => true

/-- Property access `v.k` (for the guarded accesses the routing layer
performs; primitives have none of the fields of interest). -/
def jsGet : JSVal → String → JSVal
  | .obj fields, k => (mapGet fields k).getD .undefinedV
  | _, _ => .undefinedV

/-- `Object.entries(v)`: own enumerable entries — the fields of an object,
index/character pairs of a string, nothing for other primitives. -/
def jsEntries : JSVal → List (String × JSVal)
  | .obj fields => fields
  | .str s => s.toList.enum.map (fun p => (toString p.1, JSVal.str (String.mk [p.2])))
  | _ => []

/-- Converting a JS value passed to `DataState.set` into the store's
value representation (`undefined` becomes an absent value). -/
def jsToStore : JSVal → Option JSVal
  | .undefinedV => none
  | v => some v

/-- The envelope emitted by an adapter (`DataItem` in `types.ts`);
`source` is optional there. -/
structure DataItem where
  id : String
  timestamp : Nat
  data : JSVal
  source : Option String

/-- Values held by the routing layer's store: raw JS values written by the
`stateUpdates` fan-out, or whole processed envelopes. -/
inductive RVal where
  | js (v : JSVal)
  | item (d : DataItem)

/-- The result of a checkout transform: `{key, data}`. -/
structure CheckoutResult where
  key : String
  data : JSVal

/-- A checkout transform is user code and may throw. -/
def CheckoutFunction := JSVal → Except Unit CheckoutResult

/-- One invocation of a routing-layer data callback (each runs in its own
`try/catch`). -/
inductive RouteEvent where
  | dataCb (cbId : Nat) (item : DataItem) (threw : Bool)

/-- Throw-behaviour of routing-layer data callbacks. -/
def CBB := Nat → DataItem → Bool

/-- The `DataAdapterLayer`: adapter registry (name → adapter id), the
owned store, per-adapter checkout transforms, registered data callbacks,
and the set of adapter ids whose emissions have been wired to
`handleAdapterData` by `addAdapter`. -/
structure DataAdapterLayer where
  adapters : List (String × Nat)
  dataState : DataState RVal
  checkoutFunctions : List (String × CheckoutFunction)
  dataCallbacks : List Nat
  wired : List Nat

/-- `generateStateKey(data)`: `` `${data.source || 'unknown'}_${data.id}` ``. -/
def generateStateKey (d : DataItem) : String :=
  (match d.source with
   | some s => if s = "" then "unknown" else s
   | none => "unknown") ++ "_" ++ d.id

/-- The `stateUpdates` fan-out loop: one independent `DataState.set` per
entry, in order, threading the store and concatenating the traces. -/
def applyStateUpdates (st : DataState RVal) (upds : List (String × JSVal))
    (kb : KB RVal) (gb : GB RVal) : DataState RVal × List (StoreEvent RVal) :=
  match upds with
  | [] => (st, [])
  | (k, v) :: rest =>
      let r := st.set k ((jsToStore v).map RVal.js) kb gb
      let r' := applyStateUpdates r.1 rest kb gb
      (r'.1, r.2 ++ r'.2)

/-- The tail of `handleAdapterData` after the checkout step: the
`stateUpdates` fan-out, the main write, and the data-callback broadcast. -/
def afterCheckout (L : DataAdapterLayer) (pd : DataItem) (stateKey : String)
    (kb : KB RVal) (gb : GB RVal) (cbB : CBB) :
    DataAdapterLayer × List (StoreEvent RVal) × List RouteEvent :=
  let auxEntries :=
    if jsTruthy pd.data && jsTruthy (jsGet pd.data "stateUpdates")
    then jsEntries (jsGet pd.data "stateUpdates")
    else []
  let r1 := applyStateUpdates L.dataState auxEntries kb gb
  let r2 := r1.1.set stateKey (some (RVal.item pd)) kb gb
  ({ L with dataState := r2.1 },
   r1.2 ++ r2.2,
   L.dataCallbacks.map (fun c => RouteEvent.dataCb c pd (cbB c pd)))

/-- The body of `handleAdapterData`'s `try` block: look up the checkout
transform under `data.source || ''`; when present, apply it (it may
throw) to obtain the replacement payload and explicit key, otherwise keep
the raw payload and the generated default key. -/
def handleCore (L : DataAdapterLayer) (d : DataItem)
    (kb : KB RVal) (gb : GB RVal) (cbB : CBB) :
    Except Unit (DataAdapterLayer × List (StoreEvent RVal) × List RouteEvent) :=
  match mapGet L.checkoutFunctions (d.source.getD "") with
  | some fn =>
      match fn d.data with
      | .error e => .error e
      | .ok result => .ok (afterCheckout L { d with data := result.data } result.key kb gb cbB)
  | none => .ok (afterCheckout L d (generateStateKey d) kb gb cbB)

/-- `handleAdapterData`: the `try` body, with the surrounding `catch` that
logs any exception and leaves the layer unchanged. -/
def handleAdapterData (L : DataAdapterLayer) (d : DataItem)
    (kb : KB RVal) (gb : GB RVal) (cbB : CBB) :
    DataAdapterLayer × List (StoreEvent RVal) × List RouteEvent :=
  match handleCore L d kb gb cbB with
  | .ok r => r
  | .error _ => (L, [], [])

/-- Processing a sequence of adapter emissions, one `handleAdapterData`
call each, collecting the traces. -/
def processEmissions (L : DataAdapterLayer) (ds : List DataItem)
    (kb : KB RVal) (gb : GB RVal) (cbB : CBB) :
    DataAdapterLayer × List (StoreEvent RVal) × List RouteEvent :=
  match ds with
  | [] => (L, [], [])
  | d :: rest =>
      let r := handleAdapterData L d kb gb cbB
      let r' := processEmissions r.1 rest kb gb cbB
      (r'.1, r.2.1 ++ r'.2.1, r.2.2 ++ r'.2.2)

/-- `addAdapter(adapter)`: throw if the name is already registered,
otherwise register the adapter and wire its emissions. -/
def addAdapter (L : DataAdapterLayer) (name : String) (aid : Nat) :
    Except Unit DataAdapterLayer :=
  if (mapGet L.adapters name).isSome then .error ()
  else .ok { L with adapters := L.adapters ++ [(name, aid)], wired := L.wired ++ [aid] }

/-- The layer state after an `addAdapter` call whose exception, if any,
was caught by the caller: on error nothing was mutated. -/
def tryAddAdapter (L : DataAdapterLayer) (name : String) (aid : Nat) : DataAdapterLayer :=
  match addAdapter L name aid with
  | .ok L2 => L2
  | .error _ => L

/-- An emission from adapter `aid` reaches `handleAdapterData` exactly
when the adapter's `onData` wiring was installed by `addAdapter`. -/
def adapterEmit (L : DataAdapterLayer) (aid : Nat) (d : DataItem)
    (kb : KB RVal) (gb : GB RVal) (cbB : CBB) :
    DataAdapterLayer × List (StoreEvent RVal) × List RouteEvent :=
  if aid ∈ L.wired then handleAdapterData L d kb gb cbB else (L, [], [])

/-- A sequence of independent `DataState.set` calls, in order: the shape
the specification prescribes for the routing layer's writes. -/
def setSeq {V : Type} (st : DataState V) (ws : List (String × Option V))
    (kb : KB V) (gb : GB V) : DataState V × List (StoreEvent V) :=
  match ws with
  | [] => (st, [])
  | (k, v) :: rest =>
      let r := st.set k v kb gb
      let r' := setSeq r.1 rest kb gb
      (r'.1, r.2 ++ r'.2)

/-- The write list `handleAdapterData` is specified to perform for a
processed payload `pd` and computed key: every `stateUpdates` pair as its
own write, then the main entry. -/
def routeWrites (pd : DataItem) (stateKey : String) : List (String × Option RVal) :=
  (if jsTruthy pd.data && jsTruthy (jsGet pd.data "stateUpdates")
   then jsEntries (jsGet pd.data "stateUpdates")
   else []).map (fun kv => (kv.1, (jsToStore kv.2).map RVal.js)) ++
  [(stateKey, some (RVal.item pd))]

/-!
## Push-style adapter reconnect machine (`SSEAdapter` / `WebSocketAdapter`)

The reconnect logic shared by the push-style adapters, driven by the
events the environment can deliver: an `onerror` while unsolicited, an
`onopen` (a connect — automatic or explicit — that succeeded), the firing
of the armed reconnect timer, and an explicit `disconnect()` call.
-/

/-- Configuration of a push-style adapter. -/
structure SSEConfig where
  reconnectInterval : Nat
  maxReconnectAttempts : Nat

/-- The adapter's reconnect state: `connected`, the attempt counter, and
whether a reconnect timer is currently armed. -/
structure SSEState where
  connected : Bool
  reconnectAttempts : Nat
  timerSet : Bool
deriving DecidableEq, Repr

/-- Externally visible scheduling action: arming the reconnect timer with
a delay. -/
inductive SSEAct where
  | armTimer (delay : Nat)
deriving DecidableEq, Repr

/-- Events driving the reconnect machine. -/
inductive SSEEv where
  | errorEv
  | openEv
  | timerFire
  | userDisconnect
deriving DecidableEq, Repr

/-- `scheduleReconnect()`: return if a timer is already armed; otherwise
increment the attempt counter and arm the timer with the configured
constant interval. -/
def scheduleReconnect (cfg : SSEConfig) (s : SSEState) : SSEState × List SSEAct :=
  if s.timerSet then (s, [])
  else ({ s with reconnectAttempts := s.reconnectAttempts + 1, timerSet := true },
        [SSEAct.armTimer cfg.reconnectInterval])

/-- One environment event.  `onerror` clears `connected` and schedules a
reconnect only while the attempt counter is below the ceiling; `onopen`
marks connected and resets the counter; the timer callback nulls the
timer handle and runs `disconnect()` then `connect()` (whose outcome
arrives later as `openEv` or `errorEv`); explicit `disconnect()` clears
the timer and the connection. -/
def sseStep (cfg : SSEConfig) (s : SSEState) (e : SSEEv) : SSEState × List SSEAct :=
  match e with
  | .errorEv =>
      let s1 := { s with connected := false }
      if s1.reconnectAttempts < cfg.maxReconnectAttempts then scheduleReconnect cfg s1
      else (s1, [])
  | .openEv => ({ s with connected := true, reconnectAttempts := 0 }, [])
  | .timerFire =>
      if s.timerSet then ({ s with timerSet := false, connected := false }, [])
      else (s, [])
  | .userDisconnect => ({ s with timerSet := false, connected := false }, [])

/-- Run the machine over a trace of events, collecting scheduling acts. -/
def sseRun (cfg : SSEConfig) (s : SSEState) : List SSEEv → SSEState × List SSEAct
  | [] => (s, [])
  | e :: es =>
      let r := sseStep cfg s e
      let r' := sseRun cfg r.1 es
      (r'.1, r.2 ++ r'.2)

/-!
## Stream adapter cancellation (`StreamAdapter`)

`disconnect()` clears `connected`, cancels the reader and aborts the
fetch, but does *not* clear a retry `setTimeout` scheduled by a previous
`startStream` failure, and `startStream` does not re-check `connected`
on entry.
-/

/-- Configuration of the stream adapter. -/
structure StreamConfig where
  retryAttempts : Nat

/-- Stream adapter state: `connected`, a scheduled retry timer carrying
the `retryCount` argument of the pending `startStream` call, and the
`retryCount` of the currently running `startStream` invocation. -/
structure StreamState where
  connected : Bool
  pendingRetry : Option Nat
  attempt : Nat
deriving DecidableEq, Repr

/-- Externally visible stream-adapter outputs. -/
inductive StreamOut where
  | disconnected
  | emit
deriving DecidableEq, Repr

/-- Events driving the stream adapter. -/
inductive StreamEv where
  | connectCall
  | fetchOk
  | failEv
  | disconnectCall
  | retryFire
  | lineEv
deriving DecidableEq, Repr

/-- One event.  `connect()` begins `startStream(0)` when not connected;
a successful fetch sets `connected` and starts the read loop; a stream
failure runs the `catch`: when `retryCount < retryAttempts && connected`
it schedules `startStream(retryCount + 1)` via `setTimeout`, otherwise
it clears `connected`; `disconnect()` clears `connected` and aborts the
in-flight request but leaves any retry timer armed; the retry timer
firing starts the scheduled `startStream`; a received line is emitted
only while the read loop runs (`connected`). -/
def streamStep (cfg : StreamConfig) (s : StreamState) (e : StreamEv) :
    StreamState × List StreamOut :=
  match e with
  | .connectCall => if s.connected then (s, []) else ({ s with attempt := 0 }, [])
  | .fetchOk => ({ s with connected := true }, [])
  | .failEv =>
      if s.attempt < cfg.retryAttempts && s.connected
      then ({ s with pendingRetry := some (s.attempt + 1) }, [])
      else ({ s with connected := false }, [])
  | .disconnectCall => ({ s with connected := false }, [StreamOut.disconnected])
  | .retryFire =>
      match s.pendingRetry with
      | some rc => ({ s with pendingRetry := none, attempt := rc }, [])
      | none => (s, [])
  | .lineEv => (s, if s.connected then [StreamOut.emit] else [])

/-- Run the stream adapter over a trace of events. -/
def streamRun (cfg : StreamConfig) (s : StreamState) :
    List StreamEv → StreamState × List StreamOut
  | [] => (s, [])
  | e :: es =>
      let r := streamStep cfg s e
      let r' := streamRun cfg r.1 es
      (r'.1, r.2 ++ r'.2)

/-!
## Aggregate connect/disconnect (`connectAll` / `disconnectAll`)

Each registered adapter's `connect()`/`disconnect()` outcome is an
environment parameter.  Every wrapped promise runs (all side effects
happen); `connectAll` aggregates with `Promise.all` after a `catch` that
logs and rethrows, `disconnectAll` with `Promise.allSettled` after a
`catch` that only logs.
-/

/-- `Promise.all`: rejects as soon as any input rejects. -/
def promiseAll : List (Except Unit Unit) → Except Unit Unit
  | [] => .ok ()
  | .error e :: _ => .error e
  | .ok _ :: rest => promiseAll rest

/-- The per-adapter thunk inside `connectAll`: `try { await connect() }
catch (e) { log; throw e }`. -/
def connectWrapped (outcome : Nat → Except Unit Unit) (aid : Nat) : Except Unit Unit :=
  match outcome aid with
  | .ok _ => .ok ()
  | .error e => .error e

/-- The per-adapter thunk inside `disconnectAll`: the `catch` only logs,
so the promise always resolves. -/
def disconnectWrapped (outcome : Nat → Except Unit Unit) (aid : Nat) : Except Unit Unit :=
  match outcome aid with
  | .ok _ => .ok ()
  | .error _ => .ok ()

/-- `connectAll()`: every adapter's connect runs (a success marks that
adapter connected regardless of the others), and the aggregate result is
the `Promise.all` of the wrapped thunks. -/
def DataAdapterLayer.connectAll (L : DataAdapterLayer) (conn : List (Nat × Bool))
    (outcome : Nat → Except Unit Unit) : List (Nat × Bool) × Except Unit Unit :=
  let ids := L.adapters.map (fun kv => kv.2)
  (ids.foldl (fun acc aid =>
      match outcome aid with
      | .ok _ => mapSet acc aid true
      | .error _ => acc) conn,
   promiseAll (ids.map (connectWrapped outcome)))

/-- `disconnectAll()`: every adapter's disconnect runs (a success marks
that adapter disconnected), failures are only logged, and the aggregate
is the `Promise.allSettled` of promises that all resolve. -/
def DataAdapterLayer.disconnectAll (L : DataAdapterLayer) (conn : List (Nat × Bool))
    (outcome : Nat → Except Unit Unit) : List (Nat × Bool) × Except Unit Unit :=
  let ids := L.adapters.map (fun kv => kv.2)
  (ids.foldl (fun acc aid =>
      match outcome aid with
      | .ok _ => mapSet acc aid false
      | .error _ => acc) conn,
   promiseAll (ids.map (disconnectWrapped outcome)))

/-- The immediate-replay trace of a `subscribe(key, callback)` call: one
invocation with the current value when it is not `undefined`, none
otherwise. -/
def replayEvents {V : Type} (s : DataState V) (key : String) (c : Nat)
    (kb : KB V) : List (StoreEvent V) :=
  match s.get key with
  | some v => [StoreEvent.keyNotify c (some v) (kb c (some v))]
  | none => []

/-- Is this event a per-key invocation of callback `c`? -/
def isKeyOf {V : Type} (c : Nat) : StoreEvent V → Bool
  | .keyNotify i _ _ => i == c
  | .globalNotify _ _ _ _ => false

/-- Is this event a per-key invocation of any callback? -/
def isKeyNotify {V : Type} : StoreEvent V → Bool
  | .keyNotify _ _ _ => true
  | .globalNotify _ _ _ _ => false

/-!
## Concrete instances used to evaluate the definitions
-/

/-- A per-key callback behaviour that never throws. -/
def kbF : KB Nat := fun _ _ => false

/-- A per-key callback behaviour that always throws. -/
def kbT : KB Nat := fun _ _ => true

/-- A global callback behaviour that never throws. -/
def gbF : GB Nat := fun _ _ _ => false

/-- A global callback behaviour that always throws. -/
def gbT : GB Nat := fun _ _ _ => true

/-- Sample store: empty. -/
def w0 : DataState Nat := DataState.empty

/-- Sample run: subscribe callback 7 to key `k` on the empty store. -/
def wSub : DataState Nat × Cancel × List (StoreEvent Nat) := w0.subscribe "k" 7 kbF

/-- Sample run: first write, with every callback throwing. -/
def wSet1 : DataState Nat × List (StoreEvent Nat) := wSub.1.set "k" (some 1) kbT gbT

/-- Sample run: second write, with no callback throwing. -/
def wSet2 : DataState Nat × List (StoreEvent Nat) := wSet1.1.set "k" (some 2) kbF gbF

/-- Stale-handle run, step 1: subscribe callback 1 to `k` on the empty
store. -/
def cSub1 : DataState Nat × Cancel × List (StoreEvent Nat) := w0.subscribe "k" 1 kbF

/-- Stale-handle run, step 2: cancel that subscription (the container is
emptied and the key's entry removed). -/
def cAfterCancel : DataState Nat := cSub1.1.unsubscribe cSub1.2.1

/-- Stale-handle run, step 3: a fresh subscriber 2 on `k` (a new
container is created). -/
def cSub2 : DataState Nat × Cancel × List (StoreEvent Nat) := cAfterCancel.subscribe "k" 2 kbF

/-- Stale-handle run, step 4: invoke the first cancellation handle a
second time. -/
def cAfterStale : DataState Nat := cSub2.1.unsubscribe cSub1.2.1

/-- Sample store with one entry, one per-key subscriber (4 on `k`) and
one global subscriber (9). -/
def d0 : DataState Nat :=
  { data := [("k", some 5)], pools := [(0, [4])], subs := [("k", 0)],
    nextPool := 1, globals := [9] }

/-- Sample store with no entries but a per-key subscriber (4 on `k`) and
a global subscriber (9). -/
def d1 : DataState Nat :=
  { data := [], pools := [(0, [4])], subs := [("k", 0)],
    nextPool := 1, globals := [9] }

/-- Store-callback behaviours over routing values, never throwing. -/
def kbR : KB RVal := fun _ _ => false

/-- Global-callback behaviour over routing values, never throwing. -/
def gbR : GB RVal := fun _ _ _ => false

/-- Data-callback behaviour, never throwing. -/
def cbbF : CBB := fun _ _ => false

/-- Sample envelope from source `sensor` whose payload carries a
`stateUpdates` side channel. -/
def itemA : DataItem :=
  { id := "1", timestamp := 0,
    data := JSVal.obj [("stateUpdates", JSVal.obj [("a", JSVal.num 1)]),
                       ("temp", JSVal.num 30)],
    source := some "sensor" }

/-- Second sample envelope, no side channel. -/
def itemB : DataItem :=
  { id := "2", timestamp := 1, data := JSVal.num 5, source := some "sensor" }

/-- Sample routing layer: one registered, wired adapter named `sensor`,
no checkout transform, one data callback. -/
def L0 : DataAdapterLayer :=
  { adapters := [("sensor", 0)], dataState := DataState.empty,
    checkoutFunctions := [], dataCallbacks := [3], wired := [0] }

/-- A checkout transform that always throws. -/
def fnThrow : CheckoutFunction := fun _ => .error ()

/-- Sample routing layer whose `sensor` transform always throws. -/
def L1 : DataAdapterLayer :=
  { adapters := [("sensor", 0)], dataState := DataState.empty,
    checkoutFunctions := [("sensor", fnThrow)], dataCallbacks := [3], wired := [0] }

/-- Push-adapter configuration with 3 reconnect attempts at 1000 ms. -/
def sseCfg0 : SSEConfig := { reconnectInterval := 1000, maxReconnectAttempts := 3 }

/-- A connected push adapter with no attempts consumed. -/
def sseS0 : SSEState := { connected := true, reconnectAttempts := 0, timerSet := false }

/-- The push adapter after exhausting its reconnect ceiling. -/
def sseSat : SSEState := { connected := false, reconnectAttempts := 3, timerSet := false }

/-- A run of unsolicited errors in which every reconnect fails: each
`errorEv` is a failed (re)connect, each `timerFire` a due reconnect
timer; no `openEv` ever arrives. -/
def sseDemoEs : List SSEEv :=
  [.errorEv, .timerFire, .errorEv, .timerFire, .errorEv, .timerFire, .errorEv, .errorEv]

/-- Stream-adapter configuration with 3 retry attempts. -/
def streamCfg0 : StreamConfig := { retryAttempts := 3 }

/-- A stream adapter that has never connected. -/
def streamS0 : StreamState := { connected := false, pendingRetry := none, attempt := 0 }

/-- The run demonstrating the stale retry timer: connect, stream up, a
mid-stream failure schedules a retry, `disconnect()` resolves, then the
(uncancelled) retry fires and its fetch succeeds, re-entering the
Connected state and emitting a line. -/
def streamDemo : List StreamEv :=
  [.connectCall, .fetchOk, .failEv, .disconnectCall, .retryFire, .fetchOk, .lineEv]

/-- Routing layer with two registered adapters, for aggregate
connect/disconnect runs. -/
def L2 : DataAdapterLayer :=
  { adapters := [("a", 0), ("b", 1)], dataState := DataState.empty,
    checkoutFunctions := [], dataCallbacks := [], wired := [0, 1] }

/-- A per-adapter outcome where adapter 0 succeeds and adapter 1 fails. -/
def outMix : Nat → Except Unit Unit := fun aid => if aid = 0 then .ok () else .error ()

/-!
## Basic lemmas about the map and set models
-/

section MapLemmas

variable {κ α : Type} [DecidableEq κ]

theorem mapGet_mapSet_self (m : List (κ × α)) (k : κ) (v : α) :
    mapGet (mapSet m k v) k = some v := by
  induction m with
  | nil => simp [mapSet, mapGet]
  | cons p rest ih =>
      obtain ⟨k1, v1⟩ := p
      by_cases h : k1 = k <;> simp [mapSet, mapGet, h, ih]

theorem mapGet_mapSet_ne (m : List (κ × α)) {k k' : κ} (v : α) (h : k' ≠ k) :
    mapGet (mapSet m k v) k' = mapGet m k' := by
  induction m with
  | nil => simp [mapSet, mapGet, Ne.symm h]
  | cons p rest ih =>
      obtain ⟨k1, v1⟩ := p
      by_cases h1 : k1 = k
      · subst h1
        simp [mapSet, mapGet, Ne.symm h]
      · simp [mapSet, if_neg h1, mapGet, ih]

theorem mapGet_eq_none_of_not_mem {m : List (κ × α)} {k : κ}
    (h : k ∉ m.map Prod.fst) : mapGet m k = none := by
  induction m with
  | nil => rfl
  | cons p rest ih =>
      obtain ⟨k1, v1⟩ := p
      simp only [List.map_cons, List.mem_cons, not_or] at h
      simp [mapGet, Ne.symm h.1, ih h.2]

theorem mapGet_append_of_not_mem {m l : List (κ × α)} {k : κ}
    (h : k ∉ m.map Prod.fst) : mapGet (m ++ l) k = mapGet l k := by
  induction m with
  | nil => rfl
  | cons p rest ih =>
      obtain ⟨k1, v1⟩ := p
      simp only [List.map_cons, List.mem_cons, not_or] at h
      simp [mapGet, Ne.symm h.1, ih h.2]

theorem mapGet_mapDelete_self {m : List (κ × α)} (k : κ)
    (h : (m.map Prod.fst).Nodup) : mapGet (mapDelete m k) k = none := by
  induction m with
  | nil => rfl
  | cons p rest ih =>
      obtain ⟨k1, v1⟩ := p
      simp only [List.map_cons, List.nodup_cons] at h
      by_cases h1 : k1 = k
      · subst h1
        simpa [mapDelete] using mapGet_eq_none_of_not_mem h.1
      · simp [mapDelete, h1, mapGet, ih h.2]

theorem mapDelete_of_not_mem {m : List (κ × α)} {k : κ}
    (h : k ∉ m.map Prod.fst) : mapDelete m k = m := by
  induction m with
  | nil => rfl
  | cons p rest ih =>
      obtain ⟨k1, v1⟩ := p
      simp only [List.map_cons, List.mem_cons, not_or] at h
      simp [mapDelete, Ne.symm h.1, ih h.2]

theorem mapDelete_mapSet_of_not_mem {m : List (κ × α)} {k : κ} (v : α)
    (h : k ∉ m.map Prod.fst) : mapDelete (mapSet m k v) k = m := by
  induction m with
  | nil => simp [mapSet, mapDelete]
  | cons p rest ih =>
      obtain ⟨k1, v1⟩ := p
      simp only [List.map_cons, List.mem_cons, not_or] at h
      simp [mapSet, mapDelete, Ne.symm h.1, ih h.2]

theorem mapSet_mapGet_self {m : List (κ × α)} {k : κ} {v : α}
    (h : mapGet m k = some v) : mapSet m k v = m := by
  induction m with
  | nil => simp [mapGet] at h
  | cons p rest ih =>
      obtain ⟨k1, v1⟩ := p
      by_cases h1 : k1 = k
      · subst h1
        have hv : v1 = v := by simpa [mapGet] using h
        simp [mapSet, hv]
      · simp only [mapGet, if_neg h1] at h
        simp [mapSet, h1, ih h]

theorem mapSet_keys_mem (m : List (κ × α)) (k : κ) (v : α) :
    k ∈ (mapSet m k v).map Prod.fst := by
  induction m with
  | nil => simp [mapSet]
  | cons p rest ih =>
      obtain ⟨k1, v1⟩ := p
      by_cases h : k1 = k <;> simp [mapSet, h, ih]

end MapLemmas

section SetLemmas

variable {α : Type} [DecidableEq α]

theorem setAdd_of_not_mem {s : List α} {x : α} (h : x ∉ s) :
    setAdd s x = s ++ [x] := by
  simp [setAdd, h]

theorem setDelete_of_not_mem {s : List α} {x : α} (h : x ∉ s) :
    setDelete s x = s := by
  unfold setDelete
  apply List.filter_eq_self.mpr
  intro a ha
  simp only [ne_eq, decide_not, Bool.not_eq_eq_eq_not, Bool.not_true, decide_eq_false_iff_not]
  exact fun hax => h (hax ▸ ha)

theorem setDelete_append_self {s : List α} {x : α} (h : x ∉ s) :
    setDelete (s ++ [x]) x = s := by
  have h1 := setDelete_of_not_mem h
  unfold setDelete at h1 ⊢
  rw [List.filter_append, h1]
  simp

theorem not_mem_setDelete (s : List α) (x : α) : x ∉ setDelete s x := by
  simp [setDelete, List.mem_filter]

end SetLemmas


/-!
## Store lemmas: subscribe / unsubscribe infrastructure
-/

theorem not_mem_of_mapGet_eq_none {κ α : Type} [DecidableEq κ]
    {m : List (κ × α)} {k : κ} (h : mapGet m k = none) :
    k ∉ m.map Prod.fst := by
  induction m with
  | nil => simp
  | cons p rest ih =>
      obtain ⟨k1, v1⟩ := p
      by_cases h1 : k1 = k
      · simp [mapGet, h1] at h
      · simp only [mapGet, if_neg h1] at h
        simp [Ne.symm h1, ih h]

theorem subscribe_spec {V : Type} {s0 : DataState V} {k : String} {c : Nat}
    {kb : KB V} (hWF : s0.WF) (hc : c ∉ s0.keySubsOf k) :
    ∃ cid,
      (s0.subscribe k c kb).2.1 = ⟨k, c, cid⟩ ∧
      mapGet (s0.subscribe k c kb).1.subs k = some cid ∧
      mapGet (s0.subscribe k c kb).1.pools cid = some (s0.keySubsOf k ++ [c]) ∧
      (s0.subscribe k c kb).1.data = s0.data ∧
      (s0.subscribe k c kb).1.globals = s0.globals ∧
      (s0.subscribe k c kb).2.2 = replayEvents s0 k c kb ∧
      ((mapGet s0.subs k = some cid ∧ (s0.subscribe k c kb).1.subs = s0.subs) ∨
       (mapGet s0.subs k = none ∧ (s0.subscribe k c kb).1.subs = mapSet s0.subs k cid ∧
        k ∉ s0.subs.map Prod.fst)) := by
  cases hsub : mapGet s0.subs k with
  | some cid =>
      have hpool : (mapGet s0.pools cid).getD [] = s0.keySubsOf k := by
        simp [DataState.keySubsOf, hsub]
      have hadd : setAdd ((mapGet s0.pools cid).getD []) c = s0.keySubsOf k ++ [c] := by
        rw [hpool]; exact setAdd_of_not_mem hc
      refine ⟨cid, ?_, ?_, ?_, ?_, ?_, ?_, Or.inl ⟨rfl, ?_⟩⟩
      · simp [DataState.subscribe, hsub]
      · simp [DataState.subscribe, hsub]
      · simp only [DataState.subscribe, hsub]
        rw [hadd]
        exact mapGet_mapSet_self _ _ _
      · simp [DataState.subscribe, hsub]
      · simp [DataState.subscribe, hsub]
      · simp [DataState.subscribe, hsub, replayEvents, DataState.get]
      · simp [DataState.subscribe, hsub]
  | none =>
      have hfresh : s0.nextPool ∉ s0.pools.map Prod.fst := by
        intro hmem
        obtain ⟨pr, hpr, heq⟩ := List.mem_map.mp hmem
        have := hWF.1 pr hpr
        omega
      have hget : mapGet (s0.pools ++ [(s0.nextPool, [])]) s0.nextPool = some [] := by
        rw [mapGet_append_of_not_mem hfresh]; simp [mapGet]
      have hsubs0 : s0.keySubsOf k = [] := by
        simp [DataState.keySubsOf, hsub]
      refine ⟨s0.nextPool, ?_, ?_, ?_, ?_, ?_, ?_,
        Or.inr ⟨rfl, ?_, not_mem_of_mapGet_eq_none hsub⟩⟩
      · simp [DataState.subscribe, hsub]
      · simp only [DataState.subscribe, hsub]
        exact mapGet_mapSet_self _ _ _
      · simp only [DataState.subscribe, hsub, hget, Option.getD_some, hsubs0, List.nil_append]
        have h5 : setAdd ([] : List Nat) c = [c] := by simp [setAdd]
        rw [h5]
        exact mapGet_mapSet_self _ _ _
      · simp [DataState.subscribe, hsub]
      · simp [DataState.subscribe, hsub]
      · simp [DataState.subscribe, hsub, replayEvents, DataState.get]
      · simp [DataState.subscribe, hsub]

/-!
## Trace filtering lemmas
-/

theorem filter_isKeyOf_map_global {V : Type} (c : Nat) (l : List Nat) (k : String)
    (v : Option V) (f : Nat → Bool) :
    (l.map (fun g => StoreEvent.globalNotify g k v (f g))).filter (isKeyOf c) = [] := by
  induction l with
  | nil => rfl
  | cons a rest ih => simp [isKeyOf, ih]

theorem filter_isKeyOf_map_key_not_mem {V : Type} {c : Nat} {l : List Nat}
    (h : c ∉ l) (v : Option V) (f : Nat → Bool) :
    (l.map (fun i => StoreEvent.keyNotify i v (f i))).filter (isKeyOf c) = [] := by
  induction l with
  | nil => rfl
  | cons a rest ih =>
      simp only [List.mem_cons, not_or] at h
      simp [isKeyOf, Ne.symm h.1, ih h.2]

theorem filter_isKeyOf_map_key_append {V : Type} {c : Nat} {l : List Nat}
    (h : c ∉ l) (v : Option V) (f : Nat → Bool) :
    ((l ++ [c]).map (fun i => StoreEvent.keyNotify i v (f i))).filter (isKeyOf c) =
      [StoreEvent.keyNotify c v (f c)] := by
  rw [List.map_append, List.filter_append, filter_isKeyOf_map_key_not_mem h]
  simp [isKeyOf]

theorem set_fst_keySubsOf {V : Type} (s : DataState V) (k : String) (v : Option V)
    (kb : KB V) (gb : GB V) (k' : String) :
    ((s.set k v kb gb).1).keySubsOf k' = s.keySubsOf k' := rfl

theorem set_fst_globals {V : Type} (s : DataState V) (k : String) (v : Option V)
    (kb : KB V) (gb : GB V) : ((s.set k v kb gb).1).globals = s.globals := rfl

/-!
## Claim theorems: observable store
-/

/-- C1: `set(key, value)` overwrites (or creates) the entry and then,
synchronously within the same call, notifies first every per-key
subscriber for that key (in subscription order) with the value, then
every global subscriber with `(key, value)`; a throwing callback (any
`kb1`/`gb1` behaviour) is caught and removes no invocation from the
trace, so a subscriber registered before two writes `set(k, v1)`,
`set(k, v2)` observes exactly `v1` then `v2`, in order. -/
theorem store_set_overwrite_notify_order_isolated {V : Type}
    (s0 : DataState V) (k : String) (c : Nat) (v1 v2 : Option V)
    (kb kb1 kb2 : KB V) (gb1 gb2 : GB V)
    (hWF : s0.WF) (hc : c ∉ s0.keySubsOf k)
    (s1 : DataState V) (h1 : Cancel) (tr0 : List (StoreEvent V))
    (hsub : s0.subscribe k c kb = (s1, h1, tr0))
    (st1 : DataState V) (tr1 : List (StoreEvent V))
    (hset1 : s1.set k v1 kb1 gb1 = (st1, tr1))
    (st2 : DataState V) (tr2 : List (StoreEvent V))
    (hset2 : st1.set k v2 kb2 gb2 = (st2, tr2)) :
    mapGet st1.data k = some v1 ∧
    mapGet st2.data k = some v2 ∧
    s1.keySubsOf k = s0.keySubsOf k ++ [c] ∧
    tr1 = (s1.keySubsOf k).map (fun i => StoreEvent.keyNotify i v1 (kb1 i v1)) ++
          s1.globals.map (fun g => StoreEvent.globalNotify g k v1 (gb1 g k v1)) ∧
    (tr1 ++ tr2).filter (isKeyOf c) =
      [StoreEvent.keyNotify c v1 (kb1 c v1), StoreEvent.keyNotify c v2 (kb2 c v2)] := by
  obtain ⟨cid, hhandle, hsubk, hpools, hdata, hglob, hevents, hdisj⟩ :=
    @subscribe_spec V s0 k c kb hWF hc
  have hs1 : (s0.subscribe k c kb).1 = s1 := by rw [hsub]
  rw [hs1] at hsubk hpools
  have hks : s1.keySubsOf k = s0.keySubsOf k ++ [c] := by
    simp [DataState.keySubsOf, hsubk, hpools]
  have hst1 : st1 = (s1.set k v1 kb1 gb1).1 := by rw [hset1]
  have htr1 : tr1 = (s1.set k v1 kb1 gb1).2 := by rw [hset1]
  have hst2 : st2 = (st1.set k v2 kb2 gb2).1 := by rw [hset2]
  have htr2 : tr2 = (st1.set k v2 kb2 gb2).2 := by rw [hset2]
  have hks2 : st1.keySubsOf k = s0.keySubsOf k ++ [c] := by
    rw [hst1, set_fst_keySubsOf, hks]
  refine ⟨?_, ?_, hks, ?_, ?_⟩
  · rw [hst1]
    exact mapGet_mapSet_self _ _ _
  · rw [hst2, hst1]
    exact mapGet_mapSet_self _ _ _
  · rw [htr1]; rfl
  · rw [htr1, htr2]
    show ((s1.keySubsOf k).map (fun i => StoreEvent.keyNotify i v1 (kb1 i v1)) ++
          s1.globals.map (fun g => StoreEvent.globalNotify g k v1 (gb1 g k v1)) ++
          ((st1.keySubsOf k).map (fun i => StoreEvent.keyNotify i v2 (kb2 i v2)) ++
           st1.globals.map (fun g => StoreEvent.globalNotify g k v2 (gb2 g k v2)))).filter
            (isKeyOf c) = _
    rw [hks, hks2, List.filter_append, List.filter_append, List.filter_append,
        filter_isKeyOf_map_key_append hc, filter_isKeyOf_map_global,
        filter_isKeyOf_map_key_append hc, filter_isKeyOf_map_global]
    rfl

/-- Evaluation of C1 on a concrete run: the empty store, callback 7
subscribed to `"k"`, then the two writes of `wSet1`/`wSet2` (the first
with every callback throwing): callback 7 observes exactly `1` then `2`. -/
theorem store_set_overwrite_notify_order_isolated_witness :
    (wSet1.2 ++ wSet2.2).filter (isKeyOf 7) =
      [StoreEvent.keyNotify 7 (some 1) true, StoreEvent.keyNotify 7 (some 2) false] :=
  (store_set_overwrite_notify_order_isolated w0 "k" 7 (some 1) (some 2) kbF kbT kbF gbT gbF
    (by decide) (by decide) wSub.1 wSub.2.1 wSub.2.2 rfl wSet1.1 wSet1.2 rfl
    wSet2.1 wSet2.2 rfl).2.2.2.2

/-!
## Unsubscribe lemmas
-/

theorem mapSet_of_not_mem {κ α : Type} [DecidableEq κ] {m : List (κ × α)} {k : κ}
    (v : α) (h : k ∉ m.map Prod.fst) : mapSet m k v = m ++ [(k, v)] := by
  induction m with
  | nil => rfl
  | cons p rest ih =>
      obtain ⟨k1, v1⟩ := p
      simp only [List.map_cons, List.mem_cons, not_or] at h
      simp [mapSet, Ne.symm h.1, ih h.2]

theorem nodup_keys_mapSet_append {κ α : Type} [DecidableEq κ] {m : List (κ × α)} {k : κ}
    (v : α) (hnd : (m.map Prod.fst).Nodup) (h : k ∉ m.map Prod.fst) :
    ((mapSet m k v).map Prod.fst).Nodup := by
  rw [mapSet_of_not_mem v h, List.map_append]
  simp only [List.map_cons, List.map_nil]
  rw [List.nodup_append]
  refine ⟨hnd, List.nodup_singleton k, ?_⟩
  intro a ha
  simp only [List.mem_singleton]
  exact fun hak => h (hak ▸ ha)

theorem filter_isKeyNotify_map_global {V : Type} (l : List Nat) (k : String)
    (v : Option V) (f : Nat → Bool) :
    (l.map (fun g => StoreEvent.globalNotify g k v (f g))).filter isKeyNotify = [] := by
  induction l with
  | nil => rfl
  | cons a rest ih => simp [isKeyNotify, ih]

theorem unsubscribe_unsubscribe {V : Type} (s : DataState V) (h : Cancel)
    (hnd : (s.subs.map Prod.fst).Nodup) :
    (s.unsubscribe h).unsubscribe h = s.unsubscribe h := by
  by_cases hp : setDelete ((mapGet s.pools h.pool).getD []) h.cb = []
  · have hE1 : s.unsubscribe h =
        { s with pools := mapSet s.pools h.pool [], subs := mapDelete s.subs h.key } := by
      simp [DataState.unsubscribe, hp]
    rw [hE1]
    have A2 : mapGet (mapSet s.pools h.pool ([] : List Nat)) h.pool = some [] :=
      mapGet_mapSet_self _ _ _
    have hdel2 : mapGet (mapDelete s.subs h.key) h.key = none :=
      mapGet_mapDelete_self _ hnd
    simp [DataState.unsubscribe, A2, setDelete, mapSet_mapGet_self A2,
      mapDelete_of_not_mem (not_mem_of_mapGet_eq_none hdel2)]
  · have A : mapGet (mapSet s.pools h.pool (setDelete ((mapGet s.pools h.pool).getD []) h.cb)) h.pool = some (setDelete ((mapGet s.pools h.pool).getD []) h.cb) :=
      mapGet_mapSet_self _ _ _
    have B : setDelete (setDelete ((mapGet s.pools h.pool).getD []) h.cb) h.cb
        = setDelete ((mapGet s.pools h.pool).getD []) h.cb :=
      setDelete_of_not_mem (not_mem_setDelete _ _)
    have hE1 : s.unsubscribe h = { s with pools := mapSet s.pools h.pool (setDelete ((mapGet s.pools h.pool).getD []) h.cb) } := by
      simp [DataState.unsubscribe, hp]
    rw [hE1]
    simp [DataState.unsubscribe, A, B, hp, mapSet_mapGet_self A]

/-- C2 (amended): `subscribe(key, callback)` registers the callback at
the end of the key's subscriber set and invokes it exactly once, before
returning, with the current value when one exists (and not at all when
none does).  The returned handle deregisters the callback, removing the
key's container when it was the last subscriber, and invoking the handle
twice in a row is the same as invoking it once.  (Idempotence under an
interleaved re-subscription to the same key does not hold — see the
counterexample.) -/
theorem subscribe_register_replay_cancel {V : Type} (s0 : DataState V) (k : String)
    (c : Nat) (kb : KB V) (hWF : s0.WF) (hc : c ∉ s0.keySubsOf k)
    (s1 : DataState V) (h1 : Cancel) (tr0 : List (StoreEvent V))
    (hsub : s0.subscribe k c kb = (s1, h1, tr0)) :
    s1.keySubsOf k = s0.keySubsOf k ++ [c] ∧
    tr0 = replayEvents s0 k c kb ∧
    (∀ v, s0.get k = some v → tr0 = [StoreEvent.keyNotify c (some v) (kb c (some v))]) ∧
    (s0.get k = none → tr0 = []) ∧
    (s1.unsubscribe h1).keySubsOf k = s0.keySubsOf k ∧
    (s0.keySubsOf k = [] → mapGet (s1.unsubscribe h1).subs k = none) ∧
    (s1.unsubscribe h1).unsubscribe h1 = s1.unsubscribe h1 := by
  obtain ⟨cid, hhandle, hsubk, hpools, hdata, hglob, hevents, hdisj⟩ :=
    @subscribe_spec V s0 k c kb hWF hc
  have hs1 : (s0.subscribe k c kb).1 = s1 := by rw [hsub]
  have hpr : (s0.subscribe k c kb).2.1 = h1 := by rw [hsub]
  have htr : (s0.subscribe k c kb).2.2 = tr0 := by rw [hsub]
  rw [hs1] at hsubk hpools hdisj
  have hh1 : h1 = ⟨k, c, cid⟩ := by rw [← hpr]; exact hhandle
  have htr0 : tr0 = replayEvents s0 k c kb := by rw [← htr]; exact hevents
  subst hh1
  have hnd1 : (s1.subs.map Prod.fst).Nodup := by
    rcases hdisj with ⟨_, he⟩ | ⟨_, he, hk⟩
    · rw [he]; exact hWF.2.2.1
    · rw [he]; exact nodup_keys_mapSet_append cid hWF.2.2.1 hk
  have hpool1 : (mapGet s1.pools cid).getD [] = s0.keySubsOf k ++ [c] := by
    rw [hpools]; rfl
  have hdel : setDelete (s0.keySubsOf k ++ [c]) c = s0.keySubsOf k :=
    setDelete_append_self hc
  have hU : s1.unsubscribe ⟨k, c, cid⟩ =
      (if s0.keySubsOf k = [] then
        { s1 with pools := mapSet s1.pools cid (s0.keySubsOf k),
                  subs := mapDelete s1.subs k }
       else { s1 with pools := mapSet s1.pools cid (s0.keySubsOf k) }) := by
    by_cases ho : s0.keySubsOf k = []
    · simp [DataState.unsubscribe, hpool1, hdel, ho, setDelete]
    · simp [DataState.unsubscribe, hpool1, hdel, ho]
  refine ⟨?_, htr0, ?_, ?_, ?_, ?_, unsubscribe_unsubscribe s1 ⟨k, c, cid⟩ hnd1⟩
  · simp [DataState.keySubsOf, hsubk, hpools]
  · intro v hv
    rw [htr0, replayEvents, hv]
  · intro hv
    rw [htr0, replayEvents, hv]
  · rw [hU]
    by_cases ho : s0.keySubsOf k = []
    · rw [if_pos ho, ho]
      simp [DataState.keySubsOf, mapGet_mapDelete_self _ hnd1]
    · rw [if_neg ho]
      simp [DataState.keySubsOf, hsubk, mapGet_mapSet_self]
  · intro ho
    rw [hU, if_pos ho]
    exact mapGet_mapDelete_self _ hnd1

/-- C2 counterexample: the cancellation handle is *not* idempotent when a
new subscription to the same key happens between two invocations.  After
`subscribe("k", cb1)`, cancelling, `subscribe("k", cb2)`, the second
invocation of the first handle finds its captured (now empty, orphaned)
container, and therefore deletes the key's *new* container from the
subscriber map: subscriber 2 is silently deregistered, so the repeated
call is not a no-op. -/
theorem subscribe_cancel_stale_handle_counterexample :
    cSub2.1.keySubsOf "k" = [2] ∧
    cAfterStale.keySubsOf "k" = [] ∧
    cAfterStale ≠ cSub2.1 := by decide

/-- Evaluation of C2 on a concrete run: subscribing callback 7 to `"k"`
on the store `d0` (current value `5`, existing subscriber 4) registers
it after subscriber 4, replays the current value exactly once, and the
handle removes it again; invoking the handle twice in a row equals
invoking it once. -/
theorem subscribe_register_replay_cancel_witness :
    ((d0.subscribe "k" 7 kbF).1).keySubsOf "k" = [4, 7] ∧
    (d0.subscribe "k" 7 kbF).2.2 = [StoreEvent.keyNotify 7 (some 5) false] ∧
    (((d0.subscribe "k" 7 kbF).1).unsubscribe (d0.subscribe "k" 7 kbF).2.1).keySubsOf "k"
      = [4] ∧
    ((((d0.subscribe "k" 7 kbF).1).unsubscribe
        (d0.subscribe "k" 7 kbF).2.1).unsubscribe (d0.subscribe "k" 7 kbF).2.1)
      = ((d0.subscribe "k" 7 kbF).1).unsubscribe (d0.subscribe "k" 7 kbF).2.1 := by
  have h := subscribe_register_replay_cancel d0 "k" 7 kbF (by decide) (by decide)
    (d0.subscribe "k" 7 kbF).1 (d0.subscribe "k" 7 kbF).2.1 (d0.subscribe "k" 7 kbF).2.2 rfl
  refine ⟨?_, ?_, ?_, h.2.2.2.2.2.2⟩
  · rw [h.1]; decide
  · exact h.2.2.1 5 (by decide)
  · rw [h.2.2.2.2.1]; decide

/-- C3: `delete(key)` removes the entry for the key and the key's per-key
subscriber set, notifies every global subscriber with `(key, undefined)`
(in registration order, each in its own failure boundary — any `gb`), and
invokes no per-key subscriber. -/
theorem delete_removes_and_notifies_globals_only {V : Type} (s : DataState V)
    (k : String) (gb : GB V) (hWF : s.WF)
    (s' : DataState V) (tr : List (StoreEvent V))
    (hdel : s.delete k gb = (s', tr)) :
    mapGet s'.data k = none ∧
    mapGet s'.subs k = none ∧
    tr = s.globals.map (fun g => StoreEvent.globalNotify g k none (gb g k none)) ∧
    tr.filter isKeyNotify = [] := by
  have hs' : s' = (s.delete k gb).1 := by rw [hdel]
  have htr : tr = (s.delete k gb).2 := by rw [hdel]
  refine ⟨?_, ?_, ?_, ?_⟩
  · rw [hs']
    exact mapGet_mapDelete_self _ hWF.2.1
  · rw [hs']
    exact mapGet_mapDelete_self _ hWF.2.2.1
  · rw [htr]; rfl
  · rw [htr]
    exact filter_isKeyNotify_map_global _ _ _ _

/-- Evaluation of C3 on the concrete store `d0`: deleting `"k"` drops the
entry and the subscriber-set container, and emits exactly one global
notification with the removal sentinel; subscriber 4 is not invoked. -/
theorem delete_removes_and_notifies_globals_only_witness :
    mapGet (d0.delete "k" gbF).1.subs "k" = none ∧
    (d0.delete "k" gbF).2 = [StoreEvent.globalNotify 9 "k" none false] ∧
    ((d0.delete "k" gbF).2).filter isKeyNotify = [] := by
  have h := delete_removes_and_notifies_globals_only d0 "k" gbF (by decide)
    (d0.delete "k" gbF).1 (d0.delete "k" gbF).2 rfl
  refine ⟨h.2.1, ?_, h.2.2.2⟩
  rw [h.2.2.1]; decide

/-- C10: `set(key, undefined)` creates/keeps the entry (so `keys()` still
contains the key) and notifies subscribers of the write, yet the stored
`undefined` is unobservable through reads and replay: `get` returns
`undefined` exactly as for a never-set key, and a subsequent `subscribe`
performs no immediate replay call. -/
theorem set_undefined_indistinguishable_from_absent {V : Type} (s : DataState V)
    (k : String) (kb : KB V) (gb : GB V) (c : Nat) (kb2 : KB V)
    (s' : DataState V) (tr : List (StoreEvent V))
    (hset : s.set k none kb gb = (s', tr)) :
    k ∈ s'.keys ∧
    tr = (s.keySubsOf k).map (fun i => StoreEvent.keyNotify i none (kb i none)) ++
         s.globals.map (fun g => StoreEvent.globalNotify g k none (gb g k none)) ∧
    s'.get k = none ∧
    (∀ (t : DataState V) (k0 : String), k0 ∉ t.keys → t.get k0 = none) ∧
    (s'.subscribe k c kb2).2.2 = [] := by
  have hs' : s' = (s.set k none kb gb).1 := by rw [hset]
  have htr : tr = (s.set k none kb gb).2 := by rw [hset]
  have hget : mapGet s'.data k = some none := by
    rw [hs']
    exact mapGet_mapSet_self _ _ _
  refine ⟨?_, ?_, ?_, ?_, ?_⟩
  · rw [hs']
    exact mapSet_keys_mem _ _ _
  · rw [htr]; rfl
  · rw [DataState.get, hget]; rfl
  · intro t k0 hk0
    rw [DataState.get, mapGet_eq_none_of_not_mem hk0]; rfl
  · simp [DataState.subscribe, hget]

/-- Evaluation of C10 on the concrete store `d1`: writing `undefined`
under `"k"` leaves the key listed, notifies subscriber 4 and global 9,
while `get` returns `undefined` and a new subscription replays nothing. -/
theorem set_undefined_indistinguishable_from_absent_witness :
    "k" ∈ (d1.set "k" none kbF gbF).1.keys ∧
    (d1.set "k" none kbF gbF).2 =
      [StoreEvent.keyNotify 4 none false, StoreEvent.globalNotify 9 "k" none false] ∧
    ((d1.set "k" none kbF gbF).1).get "k" = none ∧
    (((d1.set "k" none kbF gbF).1).subscribe "k" 5 kbF).2.2 = [] := by
  have h := set_undefined_indistinguishable_from_absent d1 "k" kbF gbF 5 kbF
    (d1.set "k" none kbF gbF).1 (d1.set "k" none kbF gbF).2 rfl
  refine ⟨h.1, ?_, h.2.2.1, h.2.2.2.2⟩
  rw [h.2.1]; decide

/-!
## Routing layer lemmas
-/

theorem setSeq_append {V : Type} (st : DataState V) (ws1 ws2 : List (String × Option V))
    (kb : KB V) (gb : GB V) :
    setSeq st (ws1 ++ ws2) kb gb =
      ((setSeq (setSeq st ws1 kb gb).1 ws2 kb gb).1,
       (setSeq st ws1 kb gb).2 ++ (setSeq (setSeq st ws1 kb gb).1 ws2 kb gb).2) := by
  induction ws1 generalizing st with
  | nil => simp [setSeq]
  | cons p rest ih =>
      obtain ⟨k, v⟩ := p
      simp [setSeq, ih, List.append_assoc]

theorem setSeq_singleton {V : Type} (st : DataState V) (k : String) (v : Option V)
    (kb : KB V) (gb : GB V) :
    setSeq st [(k, v)] kb gb = st.set k v kb gb := by
  simp [setSeq]

theorem applyStateUpdates_eq_setSeq (st : DataState RVal) (l : List (String × JSVal))
    (kb : KB RVal) (gb : GB RVal) :
    applyStateUpdates st l kb gb =
      setSeq st (l.map (fun kv => (kv.1, (jsToStore kv.2).map RVal.js))) kb gb := by
  induction l generalizing st with
  | nil => rfl
  | cons p rest ih =>
      obtain ⟨k, v⟩ := p
      simp [applyStateUpdates, setSeq, ih]

theorem afterCheckout_eq (L : DataAdapterLayer) (pd : DataItem) (stateKey : String)
    (kb : KB RVal) (gb : GB RVal) (cbB : CBB) :
    afterCheckout L pd stateKey kb gb cbB =
      ({ L with dataState := (setSeq L.dataState (routeWrites pd stateKey) kb gb).1 },
       (setSeq L.dataState (routeWrites pd stateKey) kb gb).2,
       L.dataCallbacks.map (fun c => RouteEvent.dataCb c pd (cbB c pd))) := by
  unfold afterCheckout routeWrites
  rw [setSeq_append, ← applyStateUpdates_eq_setSeq, setSeq_singleton]

theorem setSeq_get_last {V : Type} (st : DataState V) (ws : List (String × Option V))
    (k : String) (v : Option V) (kb : KB V) (gb : GB V) :
    ((setSeq st (ws ++ [(k, v)]) kb gb).1).get k = v := by
  rw [setSeq_append, setSeq_singleton]
  show ((mapGet (mapSet (setSeq st ws kb gb).1.data k v) k).getD none) = v
  rw [mapGet_mapSet_self]
  rfl

/-!
## Claim theorems: routing layer
-/

/-- C4: for every handled emission, when no checkout transform is
registered for the envelope's source the store key defaults to
`"<source>_<envelopeId>"` and the payload is unchanged; when a transform
is registered and succeeds, it supplies both the replacement payload and
the key.  Either way the handling is exactly a sequence of independent
`DataState.set` calls — one per `stateUpdates` pair, in order, each with
its own notification trace — followed by the write of the main entry
under the computed key, under which the processed envelope is then
readable. -/
theorem routing_checkout_key_and_fanout (L : DataAdapterLayer) (d : DataItem)
    (kb : KB RVal) (gb : GB RVal) (cbB : CBB) :
    (mapGet L.checkoutFunctions (d.source.getD "") = none →
      handleAdapterData L d kb gb cbB =
        ({ L with dataState := (setSeq L.dataState (routeWrites d (generateStateKey d)) kb gb).1 },
         (setSeq L.dataState (routeWrites d (generateStateKey d)) kb gb).2,
         L.dataCallbacks.map (fun c => RouteEvent.dataCb c d (cbB c d)))) ∧
    (∀ fn r, mapGet L.checkoutFunctions (d.source.getD "") = some fn →
      fn d.data = Except.ok r →
      handleAdapterData L d kb gb cbB =
        ({ L with dataState :=
            (setSeq L.dataState (routeWrites { d with data := r.data } r.key) kb gb).1 },
         (setSeq L.dataState (routeWrites { d with data := r.data } r.key) kb gb).2,
         L.dataCallbacks.map (fun c =>
           RouteEvent.dataCb c { d with data := r.data } (cbB c { d with data := r.data })))) ∧
    (∀ src, d.source = some src → src ≠ "" → generateStateKey d = src ++ "_" ++ d.id) ∧
    (∀ pd key, ((setSeq L.dataState (routeWrites pd key) kb gb).1).get key
      = some (RVal.item pd)) := by
  refine ⟨?_, ?_, ?_, ?_⟩
  · intro h
    simp only [handleAdapterData, handleCore, h, afterCheckout_eq]
  · intro fn r h hr
    simp only [handleAdapterData, handleCore, h, hr, afterCheckout_eq]
  · intro src hs hne
    simp [generateStateKey, hs, hne]
  · intro pd key
    rw [routeWrites]
    exact setSeq_get_last _ _ _ _ _ _

/-- Evaluation of C4 on a concrete emission: no transform is registered,
so the key defaults to `sensor_1`; the `stateUpdates` pair `a ↦ 1` is
written by its own `set` before the main entry. -/
theorem routing_checkout_key_and_fanout_witness :
    (handleAdapterData L0 itemA kbR gbR cbbF).1.dataState.get "sensor_1"
      = some (RVal.item itemA) ∧
    (handleAdapterData L0 itemA kbR gbR cbbF).1.dataState.get "a"
      = some (RVal.js (JSVal.num 1)) := by
  have h := routing_checkout_key_and_fanout L0 itemA kbR gbR cbbF
  have h1 := h.1 rfl
  constructor
  · rw [h1]
    exact h.2.2.2 itemA (generateStateKey itemA)
  · rw [h1]
    rfl

/-- C5: an exception raised during envelope handling — here a checkout
transform that throws — is caught by the surrounding `try/catch`: the
handling call returns normally with the layer unchanged and no
notifications, nothing propagates to the adapter, and subsequent
emissions are processed exactly as if the failing one had not occurred. -/
theorem routing_transform_throw_caught (L : DataAdapterLayer) (d : DataItem)
    (kb : KB RVal) (gb : GB RVal) (cbB : CBB) (fn : CheckoutFunction) (e : Unit)
    (hfn : mapGet L.checkoutFunctions (d.source.getD "") = some fn)
    (hthrow : fn d.data = Except.error e)
    (rest : List DataItem) :
    handleAdapterData L d kb gb cbB = (L, [], []) ∧
    processEmissions L (d :: rest) kb gb cbB = processEmissions L rest kb gb cbB := by
  have h1 : handleAdapterData L d kb gb cbB = (L, [], []) := by
    simp only [handleAdapterData, handleCore, hfn, hthrow]
  refine ⟨h1, ?_⟩
  simp [processEmissions, h1]

/-- Evaluation of C5 on a concrete run: the `sensor` transform of `L1`
throws on `itemA`; handling returns the unchanged layer and processing
`[itemA, itemB]` equals processing `[itemB]` alone. -/
theorem routing_transform_throw_caught_witness :
    handleAdapterData L1 itemA kbR gbR cbbF = (L1, [], []) ∧
    processEmissions L1 [itemA, itemB] kbR gbR cbbF
      = processEmissions L1 [itemB] kbR gbR cbbF :=
  routing_transform_throw_caught L1 itemA kbR gbR cbbF fnThrow () rfl rfl [itemB]

/-- C6: `addAdapter` with an already-registered name throws and, the
exception being raised before any mutation, the registry is unchanged:
the first adapter stays registered under the name and its wired
emissions are still routed through `handleAdapterData`; registering an
unused name succeeds. -/
theorem addAdapter_duplicate_rejected (L : DataAdapterLayer) (name : String)
    (aid0 aid' : Nat) (d : DataItem) (kb : KB RVal) (gb : GB RVal) (cbB : CBB)
    (hreg : mapGet L.adapters name = some aid0) (hw : aid0 ∈ L.wired) :
    addAdapter L name aid' = .error () ∧
    tryAddAdapter L name aid' = L ∧
    mapGet (tryAddAdapter L name aid').adapters name = some aid0 ∧
    adapterEmit (tryAddAdapter L name aid') aid0 d kb gb cbB
      = handleAdapterData L d kb gb cbB ∧
    (∀ name2 aid2, mapGet L.adapters name2 = none →
      addAdapter L name2 aid2 =
        .ok { L with adapters := L.adapters ++ [(name2, aid2)],
                     wired := L.wired ++ [aid2] }) := by
  have herr : addAdapter L name aid' = .error () := by
    simp [addAdapter, hreg]
  have htry : tryAddAdapter L name aid' = L := by
    simp [tryAddAdapter, herr]
  refine ⟨herr, htry, ?_, ?_, ?_⟩
  · rw [htry]; exact hreg
  · rw [htry]
    simp [adapterEmit, hw]
  · intro name2 aid2 h2
    simp [addAdapter, h2]

/-- Evaluation of C6 on the concrete layer `L0`: re-registering the name
`sensor` fails, the registry still maps `sensor` to adapter 0, and an
emission from adapter 0 is still routed. -/
theorem addAdapter_duplicate_rejected_witness :
    addAdapter L0 "sensor" 5 = .error () ∧
    mapGet (tryAddAdapter L0 "sensor" 5).adapters "sensor" = some 0 ∧
    adapterEmit (tryAddAdapter L0 "sensor" 5) 0 itemB kbR gbR cbbF
      = handleAdapterData L0 itemB kbR gbR cbbF := by
  have h := addAdapter_duplicate_rejected L0 "sensor" 0 5 itemB kbR gbR cbbF rfl (by decide)
  exact ⟨h.1, h.2.2.1, h.2.2.2.1⟩

/-!
## Reconnect machine lemmas
-/

theorem sseStep_acts (cfg : SSEConfig) (s : SSEState) (e : SSEEv) :
    (sseStep cfg s e).2 = [] ∨
    (sseStep cfg s e).2 = [SSEAct.armTimer cfg.reconnectInterval] := by
  cases e with
  | errorEv =>
      unfold sseStep scheduleReconnect
      by_cases h1 : s.reconnectAttempts < cfg.maxReconnectAttempts <;>
        by_cases h2 : s.timerSet <;> simp [h1, h2]
  | openEv => simp [sseStep]
  | timerFire =>
      unfold sseStep
      by_cases h2 : s.timerSet <;> simp [h2]
  | userDisconnect => simp [sseStep]

theorem sseStep_attempts_le (cfg : SSEConfig) (s : SSEState) (e : SSEEv)
    (hle : s.reconnectAttempts ≤ cfg.maxReconnectAttempts) :
    (sseStep cfg s e).1.reconnectAttempts ≤ cfg.maxReconnectAttempts := by
  cases e with
  | errorEv =>
      unfold sseStep scheduleReconnect
      by_cases h1 : s.reconnectAttempts < cfg.maxReconnectAttempts <;>
        by_cases h2 : s.timerSet <;> simp [h1, h2] <;> omega
  | openEv => simp [sseStep]
  | timerFire =>
      unfold sseStep
      by_cases h2 : s.timerSet <;> simpa [h2] using hle
  | userDisconnect => simpa [sseStep] using hle

theorem sseStep_attempts_acts (cfg : SSEConfig) (s : SSEState) (e : SSEEv)
    (hne : e ≠ SSEEv.openEv) :
    (sseStep cfg s e).1.reconnectAttempts
      = s.reconnectAttempts + (sseStep cfg s e).2.length := by
  cases e with
  | errorEv =>
      unfold sseStep scheduleReconnect
      by_cases h1 : s.reconnectAttempts < cfg.maxReconnectAttempts <;>
        by_cases h2 : s.timerSet <;> simp [h1, h2]
  | openEv => exact absurd rfl hne
  | timerFire =>
      unfold sseStep
      by_cases h2 : s.timerSet <;> simp [h2]
  | userDisconnect => simp [sseStep]

theorem sse_attempts_eq_of_no_open (cfg : SSEConfig) (s : SSEState) (es : List SSEEv)
    (h : SSEEv.openEv ∉ es) :
    (sseRun cfg s es).1.reconnectAttempts
      = s.reconnectAttempts + (sseRun cfg s es).2.length := by
  induction es generalizing s with
  | nil => simp [sseRun]
  | cons e rest ih =>
      simp only [List.mem_cons, not_or] at h
      simp only [sseRun, List.length_append]
      rw [ih _ h.2, sseStep_attempts_acts cfg s e (Ne.symm h.1)]
      omega

theorem sse_attempts_le (cfg : SSEConfig) (s : SSEState) (es : List SSEEv)
    (hle : s.reconnectAttempts ≤ cfg.maxReconnectAttempts) :
    (sseRun cfg s es).1.reconnectAttempts ≤ cfg.maxReconnectAttempts := by
  induction es generalizing s with
  | nil => simpa [sseRun] using hle
  | cons e rest ih =>
      simp only [sseRun]
      exact ih _ (sseStep_attempts_le cfg s e hle)

theorem sse_delays_constant (cfg : SSEConfig) (s : SSEState) (es : List SSEEv) :
    ∀ a ∈ (sseRun cfg s es).2, a = SSEAct.armTimer cfg.reconnectInterval := by
  induction es generalizing s with
  | nil => simp [sseRun]
  | cons e rest ih =>
      intro a ha
      simp only [sseRun, List.mem_append] at ha
      rcases ha with ha | ha
      · rcases sseStep_acts cfg s e with h0 | h1
        · rw [h0] at ha; simp at ha
        · rw [h1] at ha; simpa using ha
      · exact ih _ a ha

theorem sse_saturated_inert (cfg : SSEConfig) (es : List SSEEv)
    (h : SSEEv.openEv ∉ es) :
    sseRun cfg { connected := false, reconnectAttempts := cfg.maxReconnectAttempts,
                 timerSet := false } es
      = ({ connected := false, reconnectAttempts := cfg.maxReconnectAttempts,
           timerSet := false }, []) := by
  induction es with
  | nil => rfl
  | cons e rest ih =>
      simp only [List.mem_cons, not_or] at h
      cases e with
      | errorEv => simp [sseRun, sseStep, ih h.2]
      | openEv => exact absurd rfl h.1
      | timerFire => simp [sseRun, sseStep, ih h.2]
      | userDisconnect => simp [sseRun, sseStep, ih h.2]

/-!
## Claim theorems: adapters
-/

/-- C7: starting from a fresh attempt counter, any run of unsolicited
errors and timer firings in which no (re)connect ever succeeds (no
`openEv`) arms the reconnect timer at most `maxReconnectAttempts` times,
every armed timer uses the fixed configured interval, and once the
ceiling is reached with no timer armed and the adapter disconnected,
every further such event leaves the state unchanged and arms nothing —
only a successful explicit `connect()` (an `openEv`) could resume. -/
theorem push_reconnect_ceiling (cfg : SSEConfig) (s : SSEState) (es : List SSEEv)
    (hno : SSEEv.openEv ∉ es) (h0 : s.reconnectAttempts = 0) :
    (sseRun cfg s es).2.length ≤ cfg.maxReconnectAttempts ∧
    (∀ a ∈ (sseRun cfg s es).2, a = SSEAct.armTimer cfg.reconnectInterval) ∧
    sseRun cfg { connected := false, reconnectAttempts := cfg.maxReconnectAttempts,
                 timerSet := false } es
      = ({ connected := false, reconnectAttempts := cfg.maxReconnectAttempts,
           timerSet := false }, []) := by
  refine ⟨?_, sse_delays_constant cfg s es, sse_saturated_inert cfg es hno⟩
  have h1 := sse_attempts_eq_of_no_open cfg s es hno
  have h2 := sse_attempts_le cfg s es (by omega)
  omega

/-- Evaluation of C7 on a concrete run with `maxReconnectAttempts = 3`:
eight unsolicited error/timer events arm the timer at most 3 times, and
the saturated adapter is inert on the same run. -/
theorem push_reconnect_ceiling_witness :
    (sseRun sseCfg0 sseS0 sseDemoEs).2.length ≤ 3 ∧
    sseRun sseCfg0 sseSat sseDemoEs = (sseSat, []) := by
  have h := push_reconnect_ceiling sseCfg0 sseS0 sseDemoEs (by decide) rfl
  exact ⟨h.1, h.2.2⟩

/-- C8 (bug demonstration): in the stream adapter, a retry scheduled by a
mid-stream failure survives `disconnect()` — the timer is not cleared
and `startStream` does not re-check `connected` — so after `disconnect()`
resolves the retry fires, the fetch succeeds, the adapter re-enters the
Connected state and emits again, with no explicit `connect()` call after
the disconnect. -/
theorem stream_disconnect_leaves_retry_armed :
    streamRun streamCfg0 streamS0 streamDemo
      = ({ connected := true, pendingRetry := none, attempt := 1 },
         [StreamOut.disconnected, StreamOut.emit]) := by decide

/-!
## Aggregate connect/disconnect lemmas
-/

theorem promiseAll_error_iff (l : List (Except Unit Unit)) :
    promiseAll l = .error () ↔ ∃ x ∈ l, x = .error () := by
  induction l with
  | nil => simp [promiseAll]
  | cons x rest ih =>
      cases x with
      | error e => cases e; simp [promiseAll]
      | ok v => cases v; simpa [promiseAll] using ih

theorem connectWrapped_error_iff (outcome : Nat → Except Unit Unit) (aid : Nat) :
    connectWrapped outcome aid = .error () ↔ outcome aid = .error () := by
  unfold connectWrapped
  cases h : outcome aid with
  | error e => cases e; simp
  | ok v => cases v; simp

theorem foldl_connect_preserves (outcome : Nat → Except Unit Unit) (ids : List Nat)
    (conn : List (Nat × Bool)) (aid : Nat) (h : mapGet conn aid = some true) :
    mapGet (ids.foldl (fun acc a =>
      match outcome a with
      | .ok _ => mapSet acc a true
      | .error _ => acc) conn) aid = some true := by
  induction ids generalizing conn with
  | nil => simpa using h
  | cons b rest ih =>
      simp only [List.foldl_cons]
      cases hb : outcome b with
      | ok v =>
          apply ih
          by_cases hba : b = aid
          · subst hba; exact mapGet_mapSet_self _ _ _
          · rw [mapGet_mapSet_ne _ _ (Ne.symm hba)]; exact h
      | error e => exact ih _ h

theorem foldl_connect_marks (outcome : Nat → Except Unit Unit) (ids : List Nat)
    (conn : List (Nat × Bool)) (aid : Nat) (hmem : aid ∈ ids)
    (hok : outcome aid = .ok ()) :
    mapGet (ids.foldl (fun acc a =>
      match outcome a with
      | .ok _ => mapSet acc a true
      | .error _ => acc) conn) aid = some true := by
  induction ids generalizing conn with
  | nil => simp at hmem
  | cons b rest ih =>
      simp only [List.foldl_cons]
      rcases List.mem_cons.mp hmem with rfl | hmem2
      · rw [hok]
        exact foldl_connect_preserves outcome rest _ _ (mapGet_mapSet_self _ _ _)
      · cases hb : outcome b with
        | ok v => exact ih _ hmem2
        | error e => exact ih _ hmem2

theorem promiseAll_disconnectWrapped (outcome : Nat → Except Unit Unit)
    (ids : List Nat) :
    promiseAll (ids.map (disconnectWrapped outcome)) = .ok () := by
  induction ids with
  | nil => rfl
  | cons b rest ih =>
      have hb : disconnectWrapped outcome b = .ok () := by
        unfold disconnectWrapped
        cases outcome b with
        | ok v => rfl
        | error e => rfl
      simp only [List.map_cons, hb, promiseAll]
      exact ih

/-- C9: `connectAll` runs every registered adapter's connect — each
success marks that adapter connected regardless of the others (no
rollback) — and the aggregate rejects exactly when some adapter's
connect fails; `disconnectAll` never raises, whatever the individual
outcomes, since each failure is caught and only logged. -/
theorem connectAll_failfast_disconnectAll_total (L : DataAdapterLayer)
    (conn : List (Nat × Bool)) (outcome : Nat → Except Unit Unit) :
    ((L.connectAll conn outcome).2 = .error () ↔
      ∃ aid ∈ L.adapters.map (fun kv => kv.2), outcome aid = .error ()) ∧
    (∀ aid ∈ L.adapters.map (fun kv => kv.2), outcome aid = .ok () →
      mapGet (L.connectAll conn outcome).1 aid = some true) ∧
    (L.disconnectAll conn outcome).2 = .ok () := by
  refine ⟨?_, ?_, ?_⟩
  · show promiseAll ((L.adapters.map (fun kv => kv.2)).map (connectWrapped outcome))
      = .error () ↔ _
    rw [promiseAll_error_iff]
    constructor
    · rintro ⟨x, hx, hxe⟩
      obtain ⟨aid, haid, rfl⟩ := List.mem_map.mp hx
      exact ⟨aid, haid, (connectWrapped_error_iff outcome aid).mp hxe⟩
    · rintro ⟨aid, haid, he⟩
      exact ⟨connectWrapped outcome aid, List.mem_map.mpr ⟨aid, haid, rfl⟩,
        (connectWrapped_error_iff outcome aid).mpr he⟩
  · intro aid hmem hok
    exact foldl_connect_marks outcome _ conn aid hmem hok
  · exact promiseAll_disconnectWrapped outcome _

/-- Evaluation of C9 on the two-adapter layer `L2` with adapter 0
succeeding and adapter 1 failing: the aggregate connect fails, adapter 0
is nevertheless connected, and the aggregate disconnect resolves. -/
theorem connectAll_failfast_disconnectAll_total_witness :
    (L2.connectAll [] outMix).2 = .error () ∧
    mapGet (L2.connectAll [] outMix).1 0 = some true ∧
    (L2.disconnectAll [] outMix).2 = .ok () := by
  have h := connectAll_failfast_disconnectAll_total L2 [] outMix
  exact ⟨h.1.mpr ⟨1, by decide, rfl⟩, h.2.1 0 (by decide) rfl, h.2.2⟩
